import Mathlib

/-!
Shallow embedding of `joku/cogs/events.py` (the telemetry/notification core
of the Jokusoramame bot): event classification, the frequency counter, the
event logger, the aggregation reconciler, and the lifecycle notification
handlers.

Python values that flow through the handlers are modelled by `PyVal`
(None, strings, ints, dicts).  Handler bodies are modelled as pure
functions returning the ordered list of external effects they issue (log
appends, counter increments, diagnostic warnings, channel sends) together
with `Option PyErr`: `Option.none` means the coroutine ran to completion,
`some e` means it aborted with the exception `e` at that point (effects
issued before the abort are kept, later statements never run — this is
ordinary Python exception propagation out of an `async def`).

External collaborators (the RethinkDB store, the Discord connection) are
modelled by parameters: `logOk : Bool` says whether a `rdblog.log` append
succeeds, and the template-resolver result `Option (PyVal × String)`
stands for `rethinkdb.get_event_message` (external to this repository).
-/

/-- A Python value as used by the handlers: None, str, int, or dict. -/
inductive PyVal where
  | none : PyVal
  | str : String → PyVal
  | int : Int → PyVal
  | dict : List (String × PyVal) → PyVal

/-- A Python dict with string keys, as an association list (first match wins,
mirroring the uniqueness of keys in a real dict). -/
abbrev PyDict := List (String × PyVal)

/-- Python exceptions that can arise in this module, plus the store failure. -/
inductive PyErr where
  | keyError : PyErr
  | attributeError : PyErr
  | valueError : PyErr
  | storeError : PyErr
deriving DecidableEq

/-- An external effect issued by a handler, in program order. -/
inductive Effect where
  | log : PyDict → Effect
  | warn : Effect
  | incr : PyVal → Effect
  | send : PyVal → String → Effect

def Effect.isIncr : Effect → Bool
  | .incr _ => true
  | _ => false

def Effect.isLog : Effect → Bool
  | .log _ => true
  | _ => false

def Effect.isSend : Effect → Bool
  | .send _ _ => true
  | _ => false

/-- Python truthiness for the values that occur here: `None` and the empty
string are falsy (`if not event:`), everything else we meet is truthy. -/
def PyVal.truthy : PyVal → Bool
  | .none => false
  | .str s => !(s == "")
  | .int n => !(n == 0)
  | .dict es => !es.isEmpty

/-- Python `==` between a value and a string literal (e.g.
`event == "PRESENCE_UPDATE"`): only a str can compare equal. -/
def PyVal.eqStr : PyVal → String → Bool
  | .str a, b => a == b
  | _, _ => false

/-- `d.get(key, default)` on a dict modelled as an association list. -/
def dget (es : PyDict) (key : String) (dflt : PyVal := .none) : PyVal :=
  match es.find? (fun p => p.1 == key) with
  | some p => p.2
  | Option.none => dflt

/-- `data[key]`: raises `KeyError` when the key is absent. -/
def dindex (es : PyDict) (key : String) : Except PyErr PyVal :=
  match es.find? (fun p => p.1 == key) with
  | some p => .ok p.2
  | Option.none => .error .keyError

/-- `v.get(key)` where `v` is an arbitrary value: succeeds (with default
`None`) only when `v` is a dict; on any other value — in particular on
`None` — Python raises `AttributeError`. -/
def PyVal.get (v : PyVal) (key : String) : Except PyErr PyVal :=
  match v with
  | .dict es => .ok (dget es key)
  | _ => .error .attributeError

/-- Python `getattr` as used on the external Discord objects (member,
server, author, channel), modelled as dict field access; absent attribute
or non-object receiver raises `AttributeError`. -/
def getattr (v : PyVal) (key : String) : Except PyErr PyVal :=
  match v with
  | .dict es =>
    match es.find? (fun p => p.1 == key) with
    | some p => .ok p.2
    | Option.none => .error .attributeError
  | _ => .error .attributeError

/-- The `unknown_events` table of events.py: op-code → synthetic name. -/
def unknown_events : List (Int × String) :=
  [(11, "HEARTBEAT_ACK"), (10, "READY"), (9, "INVALIDATE_SESSION"), (7, "RECONNECT")]

/-- `unknown_events.get(op)`: `None` unless `op` is one of the four known
control op-codes. -/
def unknownGet (op : PyVal) : PyVal :=
  match op with
  | .int n =>
    match unknown_events.lookup n with
    | some s => .str s
    | Option.none => .none
  | _ => .none

/-- Lines 83-87 of events.py:
`event = data.get("t"); if not event: event = unknown_events.get(data.get("op"));
if not event: warn(...)`.  Returns the classified kind together with the
diagnostic effects (the warning on the UNKNOWN path). -/
def classifyWithWarn (data : PyDict) : PyVal × List Effect :=
  if (dget data "t").truthy then (dget data "t", [])
  else if (unknownGet (dget data "op")).truthy then (unknownGet (dget data "op"), [])
  else (unknownGet (dget data "op"), [Effect.warn])

/-- The classified kind of a frame (first component of `classifyWithWarn`). -/
def classifyEvent (data : PyDict) : PyVal :=
  (classifyWithWarn data).1

/-- Lines 91-106 of events.py: the record `e_data` (if any) that the
per-kind branch of `on_socket_response` builds and logs.  The
PRESENCE_UPDATE branch builds its record with
`data["d"].get("guild_id", None)`, `data["d"].get("user", None).get("id",
None)` and `data["d"].get("game")` — note the second expression calls
`.get` on the default `None` when the payload has no "user" key, which
raises `AttributeError`.  The heartbeat branch compares against the
literal `"HEATBEAT_ACK"` exactly as the source spells it; `.ok
Option.none` means neither branch fired and nothing is logged. -/
def frameRecord (event : PyVal) (data : PyDict) (seq : Int) :
    Except PyErr (Option PyDict) :=
  if event.eqStr "PRESENCE_UPDATE" then
    match dindex data "d" with
    | .error e => .error e
    | .ok d =>
      match d.get "guild_id" with
      | .error e => .error e
      | .ok gid =>
        match d.get "user" with
        | .error e => .error e
        | .ok user =>
          match user.get "id" with
          | .error e => .error e
          | .ok uid =>
            match d.get "game" with
            | .error e => .error e
            | .ok game =>
              .ok (some [("t", .str "PRESENCE_UPDATE"), ("server_id", gid),
                         ("member_id", uid), ("game", game)])
  else if event.eqStr "HEATBEAT_ACK" then
    .ok (some [("t", .str "HEARTBEAT_ACK"), ("seq", .int seq)])
  else .ok Option.none

/-- The effects of the per-kind branch: build the record (errors abort
with no effect), then `await self.bot.rdblog.log(e_data)` — the append is
issued, and its failure aborts the handler with the store error. -/
def frameAction (event : PyVal) (data : PyDict) (seq : Int) (logOk : Bool) :
    List Effect × Option PyErr :=
  match frameRecord event data seq with
  | .error e => ([], some e)
  | .ok Option.none => ([], Option.none)
  | .ok (some r) =>
    if logOk then ([.log r], Option.none) else ([.log r], some .storeError)

/-- Lines 79-108 of events.py, `Events.on_socket_response`: classify the
frame, run the per-kind branch, then `self.bot.manager.events[event] += 1`.
The increment is the last statement of the handler, so it runs exactly
when no earlier statement raised. -/
def on_socket_response (data : PyDict) (seq : Int) (logOk : Bool) :
    List Effect × Option PyErr :=
  match frameAction (classifyEvent data) data seq logOk with
  | (fx, Option.none) =>
    ((classifyWithWarn data).2 ++ fx ++ [.incr (classifyEvent data)], Option.none)
  | (fx, some e) => ((classifyWithWarn data).2 ++ fx, some e)

example :
    on_socket_response [("t", .str "MESSAGE_CREATE")] 0 true =
      ([.incr (.str "MESSAGE_CREATE")], Option.none) := by rfl

example :
    on_socket_response [("op", .int 11)] 0 true =
      ([.incr (.str "HEARTBEAT_ACK")], Option.none) := by rfl

example :
    on_socket_response [("op", .int 3)] 0 true =
      ([.warn, .incr .none], Option.none) := by rfl

example :
    on_socket_response
      [("t", .str "PRESENCE_UPDATE"),
       ("d", .dict [("guild_id", .str "1"), ("user", .dict [("id", .str "2")])])]
      0 true =
      ([.log [("t", .str "PRESENCE_UPDATE"), ("server_id", .str "1"),
              ("member_id", .str "2"), ("game", .none)],
        .incr (.str "PRESENCE_UPDATE")], Option.none) := by rfl

example :
    on_socket_response
      [("t", .str "PRESENCE_UPDATE"), ("d", .dict [("guild_id", .str "1")])]
      0 true = ([], some .attributeError) := by rfl

/-! ## Template substitution (`str.format`) and the lifecycle handlers -/

def lbrace : Char := Char.ofNat 123

def rbrace : Char := Char.ofNat 125

/-- `str()` of a substituted value.  The claims only ever format `str`
values; the repr of a nested dict is abstracted. -/
def PyVal.toStr : PyVal → String
  | .none => "None"
  | .str s => s
  | .int n => toString n
  | .dict _ => "<dict>"

def dotChar : Char := Char.ofNat 46

/-- Split a replacement-field name on dots (`member.name` →
`[member, name]`). -/
def splitDotsAux (acc : List Char) : List Char → List String
  | [] => [String.mk acc.reverse]
  | c :: rest =>
    if c == dotChar then String.mk acc.reverse :: splitDotsAux [] rest
    else splitDotsAux (c :: acc) rest

def splitDots (s : String) : List String :=
  splitDotsAux [] s.data

/-- Resolve one replacement-field name of `str.format`: the first dotted
component is looked up among the keyword arguments (missing → `KeyError`,
Python's MissingTemplateField failure), the remaining components are
attribute accesses on the value. -/
def formatField (kwargs : PyDict) (field : String) : Except PyErr PyVal :=
  match splitDots field with
  | [] => .error .keyError
  | name :: attrs =>
    match kwargs.find? (fun p => p.1 == name) with
    | Option.none => .error .keyError
    | some p => attrs.foldlM getattr p.2

/-- Scanner state for `str.format`: plain text, just saw an opening
brace, inside a replacement field, or just saw a closing brace. -/
inductive FmtMode where
  | text : FmtMode
  | opened : FmtMode
  | field : String → FmtMode
  | closing : FmtMode

/-- One-character-at-a-time scanner for `str.format` templates: a doubled
brace is an escaped literal brace, an opening brace starts a replacement
field which runs to the next closing brace, a lone closing brace or an
unterminated field is a `ValueError`, and a field whose resolution fails
aborts the whole call with that error. -/
def scanFmt (kwargs : PyDict) : FmtMode → List Char → Except PyErr String
  | .text, [] => .ok ""
  | .text, c :: rest =>
    if c == lbrace then scanFmt kwargs .opened rest
    else if c == rbrace then scanFmt kwargs .closing rest
    else (scanFmt kwargs .text rest).map (fun s => String.mk [c] ++ s)
  | .opened, [] => .error .valueError
  | .opened, c :: rest =>
    if c == lbrace then (scanFmt kwargs .text rest).map (fun s => String.mk [c] ++ s)
    else if c == rbrace then
      match formatField kwargs "" with
      | .error e => .error e
      | .ok v => (scanFmt kwargs .text rest).map (fun s => v.toStr ++ s)
    else scanFmt kwargs (.field (String.mk [c])) rest
  | .field _, [] => .error .valueError
  | .field acc, c :: rest =>
    if c == rbrace then
      match formatField kwargs acc with
      | .error e => .error e
      | .ok v => (scanFmt kwargs .text rest).map (fun s => v.toStr ++ s)
    else scanFmt kwargs (.field (acc.push c)) rest
  | .closing, [] => .error .valueError
  | .closing, c :: rest =>
    if c == rbrace then (scanFmt kwargs .text rest).map (fun s => String.mk [c] ++ s)
    else .error .valueError

/-- Python `template.format(**kwargs)`: substitute every replacement field;
a field whose first name is not among `kwargs` raises `KeyError` and no
string is produced at all. -/
def pyFormat (template : String) (kwargs : PyDict) : Except PyErr String :=
  scanFmt kwargs .text template.data

example : pyFormat "Welcome {member}!" [("member", .str "Ada")] = .ok "Welcome Ada!" := by rfl

example : pyFormat "Welcome {member}!" [] = .error .keyError := by rfl

/-- Lines 191-219 of events.py, `Events.on_member_join`.  The Discord
`member` object carries `id`, `name` and `server` attributes; `resolver`
is the result of the external `rethinkdb.get_event_message(member.server,
"joins", default)` call (`Option.none` models a falsy `i`, upon which the
handler returns having only logged). -/
def on_member_join (member : PyVal) (resolver : Option (PyVal × String))
    (logOk : Bool) : List Effect × Option PyErr :=
  match getattr member "id" with
  | .error e => ([], some e)
  | .ok mid =>
    match getattr member "name" with
    | .error e => ([], some e)
    | .ok mname =>
      match getattr member "server" with
      | .error e => ([], some e)
      | .ok server =>
        match getattr server "id" with
        | .error e => ([], some e)
        | .ok sid =>
          let obb : PyDict :=
            [("t", .str "GUILD_MEMBER_ADD"), ("member_id", mid),
             ("member_name", mname), ("server_id", sid)]
          if !logOk then ([.log obb], some .storeError)
          else
            match resolver with
            | Option.none => ([.log obb], Option.none)
            | some (channel, event_msg) =>
              match pyFormat event_msg
                  [("member", member), ("server", server), ("channel", channel)] with
              | .error e => ([.log obb], some e)
              | .ok msg => ([.log obb, .send channel msg], Option.none)

/-- Lines 221-243 of events.py, `Events.on_member_remove` (same flow with
kind GUILD_MEMBER_REMOVE and category "leaves"). -/
def on_member_remove (member : PyVal) (resolver : Option (PyVal × String))
    (logOk : Bool) : List Effect × Option PyErr :=
  match getattr member "id" with
  | .error e => ([], some e)
  | .ok mid =>
    match getattr member "name" with
    | .error e => ([], some e)
    | .ok mname =>
      match getattr member "server" with
      | .error e => ([], some e)
      | .ok server =>
        match getattr server "id" with
        | .error e => ([], some e)
        | .ok sid =>
          let obb : PyDict :=
            [("t", .str "GUILD_MEMBER_REMOVE"), ("member_id", mid),
             ("member_name", mname), ("server_id", sid)]
          if !logOk then ([.log obb], some .storeError)
          else
            match resolver with
            | Option.none => ([.log obb], Option.none)
            | some (channel, event_msg) =>
              match pyFormat event_msg
                  [("member", member), ("server", server), ("channel", channel)] with
              | .error e => ([.log obb], some e)
              | .ok msg => ([.log obb, .send channel msg], Option.none)

/-- Lines 145-166 of events.py, `Events.on_member_ban` (kind
GUILD_BAN_ADD, category "bans"). -/
def on_member_ban (member : PyVal) (resolver : Option (PyVal × String))
    (logOk : Bool) : List Effect × Option PyErr :=
  match getattr member "id" with
  | .error e => ([], some e)
  | .ok mid =>
    match getattr member "name" with
    | .error e => ([], some e)
    | .ok mname =>
      match getattr member "server" with
      | .error e => ([], some e)
      | .ok server =>
        match getattr server "id" with
        | .error e => ([], some e)
        | .ok sid =>
          let obb : PyDict :=
            [("t", .str "GUILD_BAN_ADD"), ("member_id", mid),
             ("member_name", mname), ("server_id", sid)]
          if !logOk then ([.log obb], some .storeError)
          else
            match resolver with
            | Option.none => ([.log obb], Option.none)
            | some (channel, event_msg) =>
              match pyFormat event_msg
                  [("member", member), ("server", server), ("channel", channel)] with
              | .error e => ([.log obb], some e)
              | .ok msg => ([.log obb, .send channel msg], Option.none)

/-- Lines 168-189 of events.py, `Events.on_member_unban` (kind
GUILD_BAN_REMOVE, category "unbans"; the server is a separate argument,
not an attribute of the member). -/
def on_member_unban (server : PyVal) (member : PyVal)
    (resolver : Option (PyVal × String)) (logOk : Bool) :
    List Effect × Option PyErr :=
  match getattr member "id" with
  | .error e => ([], some e)
  | .ok mid =>
    match getattr member "name" with
    | .error e => ([], some e)
    | .ok mname =>
      match getattr server "id" with
      | .error e => ([], some e)
      | .ok sid =>
        let obb : PyDict :=
          [("t", .str "GUILD_BAN_REMOVE"), ("member_id", mid),
           ("member_name", mname), ("server_id", sid)]
        if !logOk then ([.log obb], some .storeError)
        else
          match resolver with
          | Option.none => ([.log obb], Option.none)
          | some (channel, event_msg) =>
            match pyFormat event_msg
                [("member", member), ("server", server), ("channel", channel)] with
            | .error e => ([.log obb], some e)
            | .ok msg => ([.log obb, .send channel msg], Option.none)

/-- Lines 122-131 of events.py, `Events.on_message_delete`: both the
`server_id` and the `channel_id` fields of the logged record are computed
from `message.server.id`. -/
def on_message_delete (message : PyVal) (logOk : Bool) :
    List Effect × Option PyErr :=
  match getattr message "author" with
  | .error e => ([], some e)
  | .ok author =>
    match getattr author "id" with
    | .error e => ([], some e)
    | .ok aid =>
      match getattr author "name" with
      | .error e => ([], some e)
      | .ok aname =>
        match getattr message "server" with
        | .error e => ([], some e)
        | .ok server =>
          match getattr server "id" with
          | .error e => ([], some e)
          | .ok sid =>
            match getattr message "content" with
            | .error e => ([], some e)
            | .ok content =>
              let obb : PyDict :=
                [("t", .str "MESSAGE_DELETE"), ("member_id", aid),
                 ("member_name", aname), ("server_id", sid),
                 ("channel_id", sid), ("content", content)]
              if logOk then ([.log obb], Option.none)
              else ([.log obb], some .storeError)

/-- Lines 133-143 of events.py, `Events.on_message_edit`: as for delete,
`channel_id` is computed from `message.server.id`. -/
def on_message_edit (old : PyVal) (message : PyVal) (logOk : Bool) :
    List Effect × Option PyErr :=
  match getattr message "author" with
  | .error e => ([], some e)
  | .ok author =>
    match getattr author "id" with
    | .error e => ([], some e)
    | .ok aid =>
      match getattr author "name" with
      | .error e => ([], some e)
      | .ok aname =>
        match getattr message "server" with
        | .error e => ([], some e)
        | .ok server =>
          match getattr server "id" with
          | .error e => ([], some e)
          | .ok sid =>
            match getattr old "content" with
            | .error e => ([], some e)
            | .ok old_content =>
              match getattr message "content" with
              | .error e => ([], some e)
              | .ok content =>
                let obb : PyDict :=
                  [("t", .str "MESSAGE_UPDATE"), ("member_id", aid),
                   ("member_name", aname), ("server_id", sid),
                   ("channel_id", sid), ("old_content", old_content),
                   ("content", content)]
                if logOk then ([.log obb], Option.none)
                else ([.log obb], some .storeError)

/-! ## The aggregation reconciler (`Events.all`) -/

/-- Modelled from the spec: `Store.groupCount` — the external store
primitive `r.table("events").group("t").count()` (spec section 6), the
mapping EventKind → number of log records of that kind, here computed
over the log (the list of stored record kinds) in first-occurrence
order. -/
def groupCount (log : List String) : List (String × Nat) :=
  log.dedup.map (fun k => (k, log.count k))

/-- Lines 47-69 of events.py, `Events.all`: run the store group/count,
list the items, `sorted(l, key=lambda x: x[1])` (ascending by count,
stable) and then `reversed(...)` for the descending presentation. -/
def aggregateAll (log : List String) : List (String × Nat) :=
  (List.insertionSort (fun a b => a.2 ≤ b.2) (groupCount log)).reverse

example :
    aggregateAll ["A", "A", "B", "C", "C", "C"] =
      [("C", 3), ("A", 2), ("B", 1)] := by rfl

/-! ## The frequency counter (`manager.events`, a `collections.Counter`) -/

/-- Equality of counter keys as Python hashing sees it.  The kinds that
reach the counter are strings or `None` (dicts are unhashable in Python
and never occur as classified kinds of well-formed frames). -/
def keyEq : PyVal → PyVal → Bool
  | .none, .none => true
  | .str a, .str b => a == b
  | .int a, .int b => a == b
  | _, _ => false

/-- A key the Python Counter can actually hold. -/
def hashable : PyVal → Bool
  | .dict _ => false
  | _ => true

/-- The in-memory frequency table, keyed by classified kind, in insertion
order as a Python dict is. -/
abbrev Counter := List (PyVal × Nat)

/-- Read of `manager.events[k]`: 0 when the key is absent. -/
def counterGet : Counter → PyVal → Nat
  | [], _ => 0
  | (k2, n) :: rest, k => if keyEq k k2 then n else counterGet rest k

/-- `manager.events[k] += 1`: bump the entry, creating it at 1. -/
def counterIncr : Counter → PyVal → Counter
  | [], k => [(k, 1)]
  | (k2, n) :: rest, k =>
    if keyEq k k2 then (k2, n + 1) :: rest else (k2, n) :: counterIncr rest k

/-- Interpretation of one handler effect on the counter state: only
`incr` touches the counter. -/
def applyEffect (c : Counter) : Effect → Counter
  | .incr k => counterIncr c k
  | _ => c

/-- Run a list of effects over the counter. -/
def runEffects (c : Counter) (fx : List Effect) : Counter :=
  fx.foldl applyEffect c

/-- Process a whole stream of incoming frames (each with its sequence
number and log-append outcome) through `on_socket_response`, tracking the
counter state. -/
def runFrames (c : Counter) (frames : List (PyDict × Int × Bool)) : Counter :=
  frames.foldl (fun c f => runEffects c (on_socket_response f.1 f.2.1 f.2.2).1) c

/-- No log effect appears strictly before the first counter increment of
an effect list (the formal shape of "the increment happens before any
I/O"). -/
def noLogBeforeIncr (fx : List Effect) : Bool :=
  (fx.takeWhile (fun e => !e.isIncr)).all (fun e => !e.isLog)

/-- A Discord member object with the attributes the handlers touch. -/
def mkMember (mid mname sid : PyVal) : PyVal :=
  .dict [("id", mid), ("name", mname), ("server", .dict [("id", sid)])]

/-- A Discord message object with the attributes the handlers touch. -/
def mkMessage (aid aname sid content : PyVal) : PyVal :=
  .dict [("author", .dict [("id", aid), ("name", aname)]),
         ("server", .dict [("id", sid)]), ("content", content)]

/-! ## Shared lemmas -/

theorem keyEq_refl (k : PyVal) (h : hashable k = true) : keyEq k k = true := by
  cases k <;> simp_all [keyEq, hashable]

theorem counterGet_incr_self (c : Counter) (k : PyVal) (h : hashable k = true) :
    counterGet (counterIncr c k) k = counterGet c k + 1 := by
  induction c with
  | nil => simp [counterIncr, counterGet, keyEq_refl k h]
  | cons p rest ih =>
    obtain ⟨k2, n⟩ := p
    cases hk : keyEq k k2 <;> simp [counterIncr, counterGet, hk, ih]

theorem counterGet_incr_le (c : Counter) (k k2 : PyVal) :
    counterGet c k ≤ counterGet (counterIncr c k2) k := by
  induction c with
  | nil => simp [counterGet]
  | cons p rest ih =>
    obtain ⟨k3, n⟩ := p
    cases hk : keyEq k2 k3 <;> cases hk2 : keyEq k k3 <;>
      simp [counterIncr, counterGet, hk, hk2, ih]

theorem counterGet_applyEffect_le (c : Counter) (e : Effect) (k : PyVal) :
    counterGet c k ≤ counterGet (applyEffect c e) k := by
  cases e <;> simp [applyEffect, counterGet_incr_le]

theorem counterGet_runEffects_le (fx : List Effect) (c : Counter) (k : PyVal) :
    counterGet c k ≤ counterGet (runEffects c fx) k := by
  induction fx generalizing c with
  | nil => simp [runEffects, List.foldl]
  | cons e fx ih =>
    calc counterGet c k ≤ counterGet (applyEffect c e) k :=
          counterGet_applyEffect_le c e k
      _ ≤ counterGet (runEffects (applyEffect c e) fx) k := ih (applyEffect c e)
      _ = counterGet (runEffects c (e :: fx)) k := by simp [runEffects, List.foldl]

theorem counterGet_runFrames_le (frames : List (PyDict × Int × Bool))
    (c : Counter) (k : PyVal) :
    counterGet c k ≤ counterGet (runFrames c frames) k := by
  induction frames generalizing c with
  | nil => simp [runFrames, List.foldl]
  | cons f frames ih =>
    calc counterGet c k
        ≤ counterGet (runEffects c (on_socket_response f.1 f.2.1 f.2.2).1) k :=
          counterGet_runEffects_le _ c k
      _ ≤ counterGet (runFrames (runEffects c (on_socket_response f.1 f.2.1 f.2.2).1) frames) k :=
          ih _
      _ = counterGet (runFrames c (f :: frames)) k := by simp [runFrames, List.foldl]

theorem classifyWithWarn_snd_benign (data : PyDict) :
    ((classifyWithWarn data).2).all (fun e => !e.isIncr && !e.isLog) = true := by
  unfold classifyWithWarn
  by_cases h1 : (dget data "t").truthy = true <;>
    by_cases h2 : (unknownGet (dget data "op")).truthy = true <;>
      simp [h1, h2, Effect.isIncr, Effect.isLog]

theorem frameAction_all_log (e : PyVal) (data : PyDict) (seq : Int) (logOk : Bool) :
    ((frameAction e data seq logOk).1).all Effect.isLog = true := by
  unfold frameAction
  cases h : frameRecord e data seq with
  | error err => rfl
  | ok o => cases o with
    | none => rfl
    | some r => cases logOk <;> rfl

theorem frameAction_skip (e : PyVal) (data : PyDict) (seq : Int) (logOk : Bool)
    (h1 : e.eqStr "PRESENCE_UPDATE" = false) (h2 : e.eqStr "HEATBEAT_ACK" = false) :
    frameAction e data seq logOk = ([], Option.none) := by
  unfold frameAction frameRecord
  simp [h1, h2]

theorem frameAction_logFail_no_success (e : PyVal) (data : PyDict) (seq : Int)
    (h : (frameAction e data seq false).2 = Option.none) :
    (frameAction e data seq false).1 = [] := by
  revert h
  unfold frameAction
  cases h : frameRecord e data seq with
  | error err => simp
  | ok o => cases o with
    | none => simp
    | some r => simp

/-- When the classified kind selects neither the PRESENCE_UPDATE branch
nor the (misspelled) heartbeat branch, the handler issues no I/O: just
the diagnostic effects of classification and the final increment. -/
theorem on_socket_other (data : PyDict) (seq : Int) (logOk : Bool)
    (h1 : (classifyEvent data).eqStr "PRESENCE_UPDATE" = false)
    (h2 : (classifyEvent data).eqStr "HEATBEAT_ACK" = false) :
    on_socket_response data seq logOk =
      ((classifyWithWarn data).2 ++ [.incr (classifyEvent data)], Option.none) := by
  unfold on_socket_response
  rw [frameAction_skip _ _ _ _ h1 h2]
  simp

theorem unknownGet_cases (op : PyVal) :
    unknownGet op = .none ∨ unknownGet op = .str "HEARTBEAT_ACK" ∨
    unknownGet op = .str "READY" ∨ unknownGet op = .str "INVALIDATE_SESSION" ∨
    unknownGet op = .str "RECONNECT" := by
  unfold unknownGet unknown_events
  cases op with
  | int n =>
    by_cases h11 : n = 11
    · subst h11; simp [List.lookup]
    · by_cases h10 : n = 10
      · subst h10; simp [List.lookup]
      · by_cases h9 : n = 9
        · subst h9; simp [List.lookup]
        · by_cases h7 : n = 7
          · subst h7; simp [List.lookup]
          · have e11 : (n == 11) = false := beq_eq_false_iff_ne.mpr h11
            have e10 : (n == 10) = false := beq_eq_false_iff_ne.mpr h10
            have e9 : (n == 9) = false := beq_eq_false_iff_ne.mpr h9
            have e7 : (n == 7) = false := beq_eq_false_iff_ne.mpr h7
            simp [List.lookup, e11, e10, e9, e7]
  | none => simp
  | str s => simp
  | dict es => simp

theorem unknownGet_not_branch (op : PyVal) :
    (unknownGet op).eqStr "PRESENCE_UPDATE" = false ∧
    (unknownGet op).eqStr "HEATBEAT_ACK" = false := by
  rcases unknownGet_cases op with h | h | h | h | h <;> rw [h] <;> exact ⟨rfl, rfl⟩

theorem classifyEvent_of_no_tag (data : PyDict) (h : (dget data "t").truthy = false) :
    classifyEvent data = unknownGet (dget data "op") := by
  unfold classifyEvent classifyWithWarn
  by_cases h2 : (unknownGet (dget data "op")).truthy = true <;> simp [h, h2]

theorem classifyWithWarn_warn (data : PyDict) (h : (dget data "t").truthy = false)
    (h2 : (unknownGet (dget data "op")).truthy = false) :
    (classifyWithWarn data).2 = [Effect.warn] := by
  unfold classifyWithWarn
  simp [h, h2]

theorem classifyWithWarn_not_incr (data : PyDict) :
    ((classifyWithWarn data).2).all (fun e => !e.isIncr) = true := by
  have h := classifyWithWarn_snd_benign data
  rw [List.all_eq_true] at h ⊢
  intro a ha
  have hb := h a ha
  simp only [Bool.and_eq_true] at hb
  exact hb.1

theorem classifyWithWarn_not_log (data : PyDict) :
    ((classifyWithWarn data).2).all (fun e => !e.isLog) = true := by
  have h := classifyWithWarn_snd_benign data
  rw [List.all_eq_true] at h ⊢
  intro a ha
  have hb := h a ha
  simp only [Bool.and_eq_true] at hb
  exact hb.2

theorem frameAction_not_incr (e : PyVal) (data : PyDict) (seq : Int) (logOk : Bool) :
    ((frameAction e data seq logOk).1).all (fun x => !x.isIncr) = true := by
  have h := frameAction_all_log e data seq logOk
  rw [List.all_eq_true] at h ⊢
  intro a ha
  have hb := h a ha
  cases a <;> simp_all [Effect.isLog, Effect.isIncr]

theorem countP_zero_of_all_not (fx : List Effect) (p : Effect → Bool)
    (h : fx.all (fun e => !p e) = true) : fx.countP p = 0 := by
  rw [List.countP_eq_zero]
  intro a ha
  have hb := (List.all_eq_true.mp h) a ha
  simp only [Bool.not_eq_true'] at hb
  simp [hb]

theorem on_socket_fst_of_success (data : PyDict) (seq : Int) (logOk : Bool)
    (h : (frameAction (classifyEvent data) data seq logOk).2 = Option.none) :
    on_socket_response data seq logOk =
      ((classifyWithWarn data).2 ++ (frameAction (classifyEvent data) data seq logOk).1
        ++ [.incr (classifyEvent data)], Option.none) := by
  unfold on_socket_response
  rcases hfa : frameAction (classifyEvent data) data seq logOk with ⟨fx, err⟩
  rw [hfa] at h
  cases err with
  | none => simp [hfa]
  | some e => simp at h

theorem on_socket_fst_of_fail (data : PyDict) (seq : Int) (logOk : Bool) (e : PyErr)
    (h : (frameAction (classifyEvent data) data seq logOk).2 = some e) :
    on_socket_response data seq logOk =
      ((classifyWithWarn data).2 ++ (frameAction (classifyEvent data) data seq logOk).1,
        some e) := by
  unfold on_socket_response
  rcases hfa : frameAction (classifyEvent data) data seq logOk with ⟨fx, err⟩
  rw [hfa] at h
  cases err with
  | none => simp at h
  | some e2 => simp at h; subst h; simp [hfa]

theorem on_socket_err_eq (data : PyDict) (seq : Int) (logOk : Bool) :
    (on_socket_response data seq logOk).2 =
      (frameAction (classifyEvent data) data seq logOk).2 := by
  unfold on_socket_response
  rcases hfa : frameAction (classifyEvent data) data seq logOk with ⟨fx, err⟩
  cases err <;> simp [hfa]

/-! ## The claims -/

/-- Claim C1, counterexample: for a PRESENCE_UPDATE frame the log append
is issued strictly before the counter increment (so the increment does
not "happen synchronously before any I/O"), and when that log append
fails the increment never happens at all. -/
theorem C1_counterexample :
    noLogBeforeIncr (on_socket_response
      [("t", PyVal.str "PRESENCE_UPDATE"),
       ("d", PyVal.dict [("guild_id", PyVal.str "1"),
                         ("user", PyVal.dict [("id", PyVal.str "2")])])]
      0 true).1 = false ∧
    ((on_socket_response
      [("t", PyVal.str "PRESENCE_UPDATE"),
       ("d", PyVal.dict [("guild_id", PyVal.str "1"),
                         ("user", PyVal.dict [("id", PyVal.str "2")])])]
      0 false).1.all (fun e => !e.isIncr)) = true :=
  ⟨rfl, rfl⟩

/-- Claim C1 (amended): the counter increment is the final action of
`on_socket_response` — for frames classified as neither PRESENCE_UPDATE
nor the literal HEATBEAT_ACK no I/O is issued at all and the increment
always occurs; when a log append is issued it precedes the increment,
and any abort (including a failed append) prevents the increment for
that frame; a handler that completes with the store failing never issued
an append. -/
theorem C1_amended (data : PyDict) (seq : Int) (logOk : Bool) :
    ((classifyEvent data).eqStr "PRESENCE_UPDATE" = false →
      (classifyEvent data).eqStr "HEATBEAT_ACK" = false →
      on_socket_response data seq logOk =
        ((classifyWithWarn data).2 ++ [.incr (classifyEvent data)], Option.none)) ∧
    ((on_socket_response data seq logOk).2 = Option.none →
      on_socket_response data seq logOk =
        ((classifyWithWarn data).2 ++ (frameAction (classifyEvent data) data seq logOk).1
          ++ [.incr (classifyEvent data)], Option.none) ∧
      (((classifyWithWarn data).2 ++ (frameAction (classifyEvent data) data seq logOk).1).all
        (fun e => !e.isIncr)) = true) ∧
    ((on_socket_response data seq logOk).2 ≠ Option.none →
      ((on_socket_response data seq logOk).1.all (fun e => !e.isIncr)) = true) ∧
    ((on_socket_response data seq false).2 = Option.none →
      ((on_socket_response data seq false).1.all (fun e => !e.isLog)) = true) := by
  refine ⟨fun h1 h2 => on_socket_other data seq logOk h1 h2, fun h => ?_, fun h => ?_, fun h => ?_⟩
  · rw [on_socket_err_eq] at h
    refine ⟨on_socket_fst_of_success data seq logOk h, ?_⟩
    simp [List.all_append, classifyWithWarn_not_incr, frameAction_not_incr]
  · rw [on_socket_err_eq] at h
    rcases hfa : (frameAction (classifyEvent data) data seq logOk).2 with _ | e
    · exact absurd hfa h
    · rw [on_socket_fst_of_fail data seq logOk e hfa]
      simp [List.all_append, classifyWithWarn_not_incr, frameAction_not_incr]
  · rw [on_socket_err_eq] at h
    rw [on_socket_fst_of_success data seq false h]
    have hnil := frameAction_logFail_no_success (classifyEvent data) data seq h
    rw [hnil]
    rw [show ((classifyWithWarn data).2 ++ [] ++ [Effect.incr (classifyEvent data)]) =
        (classifyWithWarn data).2 ++ [Effect.incr (classifyEvent data)] by simp]
    rw [List.all_append, classifyWithWarn_not_log data]
    rfl

/-- Claim C1 witness: a MESSAGE_CREATE frame issues no I/O and its
increment happens unconditionally. -/
theorem C1_witness :
    (classifyEvent [("t", PyVal.str "MESSAGE_CREATE")]).eqStr "PRESENCE_UPDATE" = false ∧
    (classifyEvent [("t", PyVal.str "MESSAGE_CREATE")]).eqStr "HEATBEAT_ACK" = false ∧
    on_socket_response [("t", PyVal.str "MESSAGE_CREATE")] 0 true =
      ([Effect.incr (PyVal.str "MESSAGE_CREATE")], Option.none) :=
  ⟨rfl, rfl, (C1_amended [("t", PyVal.str "MESSAGE_CREATE")] 0 true).1 rfl rfl⟩

/-- Claim C2: for a frame with an empty/absent type tag, classification
is the `unknown_events` lookup of the op-code — op-codes 7, 9, 10, 11
give RECONNECT, INVALIDATE_SESSION, READY, HEARTBEAT_ACK respectively,
any other op-code gives the UNKNOWN kind (Python `None`) — the handler
completes without raising, and on the UNKNOWN path a diagnostic warning
is emitted. -/
theorem C2_empty_tag_classification (data : PyDict) (seq : Int) (logOk : Bool)
    (h : (dget data "t").truthy = false) :
    classifyEvent data = unknownGet (dget data "op") ∧
    unknownGet (.int 7) = .str "RECONNECT" ∧
    unknownGet (.int 9) = .str "INVALIDATE_SESSION" ∧
    unknownGet (.int 10) = .str "READY" ∧
    unknownGet (.int 11) = .str "HEARTBEAT_ACK" ∧
    (∀ n : Int, n ≠ 7 → n ≠ 9 → n ≠ 10 → n ≠ 11 → unknownGet (.int n) = .none) ∧
    (∀ v : PyVal, (∀ n : Int, v ≠ .int n) → unknownGet v = .none) ∧
    (on_socket_response data seq logOk).2 = Option.none ∧
    (classifyEvent data = .none → Effect.warn ∈ (on_socket_response data seq logOk).1) := by
  have hc := classifyEvent_of_no_tag data h
  have hbr := unknownGet_not_branch (dget data "op")
  have h1 : (classifyEvent data).eqStr "PRESENCE_UPDATE" = false := by rw [hc]; exact hbr.1
  have h2 : (classifyEvent data).eqStr "HEATBEAT_ACK" = false := by rw [hc]; exact hbr.2
  have hsock := on_socket_other data seq logOk h1 h2
  refine ⟨hc, rfl, rfl, rfl, rfl, ?_, ?_, ?_, ?_⟩
  · intro n h7 h9 h10 h11
    have e11 : (n == 11) = false := beq_eq_false_iff_ne.mpr h11
    have e10 : (n == 10) = false := beq_eq_false_iff_ne.mpr h10
    have e9 : (n == 9) = false := beq_eq_false_iff_ne.mpr h9
    have e7 : (n == 7) = false := beq_eq_false_iff_ne.mpr h7
    unfold unknownGet unknown_events
    simp [List.lookup, e11, e10, e9, e7]
  · intro v hv
    cases v with
    | int n => exact absurd rfl (hv n)
    | none => rfl
    | str s => rfl
    | dict es => rfl
  · rw [hsock]
  · intro hnone
    have hop : (unknownGet (dget data "op")).truthy = false := by
      rw [← hc, hnone]; rfl
    have hwarn := classifyWithWarn_warn data h hop
    rw [hsock, hwarn]
    simp

/-- Claim C2 witness: op-code 3 with no type tag classifies as UNKNOWN,
the handler completes, and a warning is emitted. -/
theorem C2_witness :
    (dget [("op", PyVal.int 3)] "t").truthy = false ∧
    (on_socket_response [("op", PyVal.int 3)] 0 true).2 = Option.none ∧
    Effect.warn ∈ (on_socket_response [("op", PyVal.int 3)] 0 true).1 :=
  ⟨rfl, (C2_empty_tag_classification [("op", PyVal.int 3)] 0 true rfl).2.2.2.2.2.2.2.1,
    (C2_empty_tag_classification [("op", PyVal.int 3)] 0 true rfl).2.2.2.2.2.2.2.2 rfl⟩

/-- Claim C4: the spec promises that processing every EventFrame
completes without raising, but a PRESENCE_UPDATE frame whose payload
lacks the "user" key makes `data["d"].get("user", None).get("id", None)`
call `.get` on `None`, so the handler aborts with `AttributeError`
before any effect (no log, no counter increment). -/
theorem C4_presence_update_missing_user :
    classifyEvent [("t", PyVal.str "PRESENCE_UPDATE"),
                   ("d", PyVal.dict [("guild_id", PyVal.str "123")])] =
      PyVal.str "PRESENCE_UPDATE" ∧
    on_socket_response
      [("t", PyVal.str "PRESENCE_UPDATE"),
       ("d", PyVal.dict [("guild_id", PyVal.str "123")])] 0 true =
      ([], some PyErr.attributeError) :=
  ⟨rfl, rfl⟩

/-- Claim C7: a frame with a non-empty (truthy) type tag classifies as
exactly that tag, whatever the op-code and whether or not the tag is a
known event name. -/
theorem C7_nonempty_tag_passthrough (data : PyDict)
    (h : (dget data "t").truthy = true) :
    classifyEvent data = dget data "t" := by
  unfold classifyEvent classifyWithWarn
  simp [h]

/-- Claim C7 witness: an unknown tag passes through unchanged regardless
of the op-code. -/
theorem C7_witness :
    (dget [("t", PyVal.str "SOME_UNKNOWN_TAG"), ("op", PyVal.int 0)] "t").truthy = true ∧
    classifyEvent [("t", PyVal.str "SOME_UNKNOWN_TAG"), ("op", PyVal.int 0)] =
      dget [("t", PyVal.str "SOME_UNKNOWN_TAG"), ("op", PyVal.int 0)] "t" :=
  ⟨rfl, C7_nonempty_tag_passthrough [("t", PyVal.str "SOME_UNKNOWN_TAG"), ("op", PyVal.int 0)] rfl⟩

/-- Claim C10: a frame with an absent type tag and op-code 11 classifies
as HEARTBEAT_ACK, which never string-equals the misspelled literal
"HEATBEAT_ACK" of the logging branch, so the handler performs no log
append: its only effect is the counter increment for HEARTBEAT_ACK. -/
theorem C10_heartbeat_ack_no_log (data : PyDict) (seq : Int) (logOk : Bool)
    (h1 : (dget data "t").truthy = false) (h2 : dget data "op" = PyVal.int 11) :
    classifyEvent data = PyVal.str "HEARTBEAT_ACK" ∧
    on_socket_response data seq logOk =
      ([Effect.incr (PyVal.str "HEARTBEAT_ACK")], Option.none) := by
  have hc : classifyEvent data = PyVal.str "HEARTBEAT_ACK" := by
    rw [classifyEvent_of_no_tag data h1, h2]
    rfl
  have hop : (unknownGet (dget data "op")).truthy = true := by rw [h2]; rfl
  have hsnd : (classifyWithWarn data).2 = [] := by
    unfold classifyWithWarn
    simp [h1, hop]
  have hsock := on_socket_other data seq logOk
    (by rw [hc]; rfl) (by rw [hc]; rfl)
  rw [hsock, hsnd, hc]
  exact ⟨rfl, rfl⟩

/-- Claim C10 witness: the bare op-code-11 frame. -/
theorem C10_witness :
    (dget [("op", PyVal.int 11)] "t").truthy = false ∧
    dget [("op", PyVal.int 11)] "op" = PyVal.int 11 ∧
    on_socket_response [("op", PyVal.int 11)] 0 true =
      ([Effect.incr (PyVal.str "HEARTBEAT_ACK")], Option.none) :=
  ⟨rfl, rfl, (C10_heartbeat_ack_no_log [("op", PyVal.int 11)] 0 true rfl rfl).2⟩

/-- Claim C3: dispatch substitution — the template `Welcome {member}!`
with field `member = Ada` renders exactly `Welcome Ada!`; with the field
absent the substitution fails with `KeyError` (MissingTemplateField) and
the lifecycle handlers then emit nothing to the channel-send primitive,
reporting the error for that single dispatch only. -/
theorem C3_dispatch (mid mname sid channel : PyVal) (tmpl : String) (e : PyErr)
    (hfmt : pyFormat tmpl [("member", mkMember mid mname sid),
                           ("server", PyVal.dict [("id", sid)]),
                           ("channel", channel)] = .error e) :
    pyFormat "Welcome {member}!" [("member", PyVal.str "Ada")] = .ok "Welcome Ada!" ∧
    pyFormat "Welcome {member}!" [] = .error .keyError ∧
    on_member_join (mkMember mid mname sid) (some (channel, tmpl)) true =
      ([Effect.log [("t", .str "GUILD_MEMBER_ADD"), ("member_id", mid),
                    ("member_name", mname), ("server_id", sid)]], some e) ∧
    on_member_ban (mkMember mid mname sid) (some (channel, tmpl)) true =
      ([Effect.log [("t", .str "GUILD_BAN_ADD"), ("member_id", mid),
                    ("member_name", mname), ("server_id", sid)]], some e) := by
  refine ⟨rfl, rfl, ?_, ?_⟩
  · have kb : on_member_join (mkMember mid mname sid) (some (channel, tmpl)) true =
        (match pyFormat tmpl [("member", mkMember mid mname sid),
                              ("server", PyVal.dict [("id", sid)]),
                              ("channel", channel)] with
         | .error e2 =>
           ([Effect.log [("t", .str "GUILD_MEMBER_ADD"), ("member_id", mid),
                         ("member_name", mname), ("server_id", sid)]], some e2)
         | .ok msg =>
           ([Effect.log [("t", .str "GUILD_MEMBER_ADD"), ("member_id", mid),
                         ("member_name", mname), ("server_id", sid)],
             Effect.send channel msg], Option.none)) := rfl
    rw [kb, hfmt]
  · have kb : on_member_ban (mkMember mid mname sid) (some (channel, tmpl)) true =
        (match pyFormat tmpl [("member", mkMember mid mname sid),
                              ("server", PyVal.dict [("id", sid)]),
                              ("channel", channel)] with
         | .error e2 =>
           ([Effect.log [("t", .str "GUILD_BAN_ADD"), ("member_id", mid),
                         ("member_name", mname), ("server_id", sid)]], some e2)
         | .ok msg =>
           ([Effect.log [("t", .str "GUILD_BAN_ADD"), ("member_id", mid),
                         ("member_name", mname), ("server_id", sid)],
             Effect.send channel msg], Option.none)) := rfl
    rw [kb, hfmt]

/-- Claim C3 witness: a template referencing a missing field makes the
join handler log but send nothing, reporting the KeyError. -/
theorem C3_witness :
    pyFormat "{missing}" [("member", mkMember (PyVal.str "1") (PyVal.str "n") (PyVal.str "2")),
                          ("server", PyVal.dict [("id", PyVal.str "2")]),
                          ("channel", PyVal.dict [])] = .error PyErr.keyError ∧
    on_member_join (mkMember (PyVal.str "1") (PyVal.str "n") (PyVal.str "2"))
        (some (PyVal.dict [], "{missing}")) true =
      ([Effect.log [("t", .str "GUILD_MEMBER_ADD"), ("member_id", PyVal.str "1"),
                    ("member_name", PyVal.str "n"), ("server_id", PyVal.str "2")]],
        some PyErr.keyError) :=
  ⟨rfl, (C3_dispatch (PyVal.str "1") (PyVal.str "n") (PyVal.str "2") (PyVal.dict [])
    "{missing}" PyErr.keyError rfl).2.2.1⟩

/-- Claim C5: for each lifecycle handler, the log append is issued first
and always; when the template resolver returns no configuration the
handler terminates as a no-op having only logged (the dispatcher is
never invoked, no send effect, no error); and the frequency-counter
increment for the triggering gateway frame occurs in
`on_socket_response`, which completes for every lifecycle kind. -/
theorem C5_lifecycle (mid mname sid : PyVal) (seq : Int) (data : PyDict) (k : String)
    (hk : classifyEvent data = PyVal.str k)
    (hmem : k = "GUILD_MEMBER_ADD" ∨ k = "GUILD_MEMBER_REMOVE" ∨
            k = "GUILD_BAN_ADD" ∨ k = "GUILD_BAN_REMOVE") :
    on_member_join (mkMember mid mname sid) Option.none true =
      ([Effect.log [("t", .str "GUILD_MEMBER_ADD"), ("member_id", mid),
                    ("member_name", mname), ("server_id", sid)]], Option.none) ∧
    on_member_remove (mkMember mid mname sid) Option.none true =
      ([Effect.log [("t", .str "GUILD_MEMBER_REMOVE"), ("member_id", mid),
                    ("member_name", mname), ("server_id", sid)]], Option.none) ∧
    on_member_ban (mkMember mid mname sid) Option.none true =
      ([Effect.log [("t", .str "GUILD_BAN_ADD"), ("member_id", mid),
                    ("member_name", mname), ("server_id", sid)]], Option.none) ∧
    on_member_unban (PyVal.dict [("id", sid)]) (mkMember mid mname sid) Option.none true =
      ([Effect.log [("t", .str "GUILD_BAN_REMOVE"), ("member_id", mid),
                    ("member_name", mname), ("server_id", sid)]], Option.none) ∧
    (∀ (resolver : Option (PyVal × String)) (logOk : Bool),
      ((on_member_join (mkMember mid mname sid) resolver logOk).1).head? =
        some (Effect.log [("t", .str "GUILD_MEMBER_ADD"), ("member_id", mid),
                          ("member_name", mname), ("server_id", sid)])) ∧
    (Effect.incr (PyVal.str k) ∈ (on_socket_response data seq true).1 ∧
      (on_socket_response data seq true).2 = Option.none) := by
  have h1 : (PyVal.str k).eqStr "PRESENCE_UPDATE" = false := by
    rcases hmem with h | h | h | h <;> subst h <;> rfl
  have h2 : (PyVal.str k).eqStr "HEATBEAT_ACK" = false := by
    rcases hmem with h | h | h | h <;> subst h <;> rfl
  have hsock := on_socket_other data seq true (by rw [hk]; exact h1) (by rw [hk]; exact h2)
  refine ⟨rfl, rfl, rfl, rfl, ?_, ?_, ?_⟩
  · intro resolver logOk
    cases logOk with
    | false => rfl
    | true =>
      cases resolver with
      | none => rfl
      | some p =>
        obtain ⟨ch, t⟩ := p
        have kb : on_member_join (mkMember mid mname sid) (some (ch, t)) true =
            (match pyFormat t [("member", mkMember mid mname sid),
                               ("server", PyVal.dict [("id", sid)]),
                               ("channel", ch)] with
             | .error e2 =>
               ([Effect.log [("t", .str "GUILD_MEMBER_ADD"), ("member_id", mid),
                             ("member_name", mname), ("server_id", sid)]], some e2)
             | .ok msg =>
               ([Effect.log [("t", .str "GUILD_MEMBER_ADD"), ("member_id", mid),
                             ("member_name", mname), ("server_id", sid)],
                 Effect.send ch msg], Option.none)) := rfl
        rw [kb]
        cases pyFormat t [("member", mkMember mid mname sid),
                          ("server", PyVal.dict [("id", sid)]),
                          ("channel", ch)] <;> rfl
  · rw [hsock, hk]
    simp
  · rw [hsock]

/-- Claim C5 witness: a GUILD_MEMBER_ADD frame and a join with no
configured subscription. -/
theorem C5_witness :
    classifyEvent [("t", PyVal.str "GUILD_MEMBER_ADD")] = PyVal.str "GUILD_MEMBER_ADD" ∧
    on_member_join (mkMember (PyVal.str "1") (PyVal.str "n") (PyVal.str "2")) Option.none true =
      ([Effect.log [("t", .str "GUILD_MEMBER_ADD"), ("member_id", PyVal.str "1"),
                    ("member_name", PyVal.str "n"), ("server_id", PyVal.str "2")]],
        Option.none) ∧
    Effect.incr (PyVal.str "GUILD_MEMBER_ADD") ∈
      (on_socket_response [("t", PyVal.str "GUILD_MEMBER_ADD")] 0 true).1 :=
  ⟨rfl,
    (C5_lifecycle (PyVal.str "1") (PyVal.str "n") (PyVal.str "2") 0
      [("t", PyVal.str "GUILD_MEMBER_ADD")] "GUILD_MEMBER_ADD" rfl (Or.inl rfl)).1,
    (C5_lifecycle (PyVal.str "1") (PyVal.str "n") (PyVal.str "2") 0
      [("t", PyVal.str "GUILD_MEMBER_ADD")] "GUILD_MEMBER_ADD" rfl (Or.inl rfl)).2.2.2.2.2.1⟩

/-- Claim C6: `aggregateAll` groups the log by kind and counts each
group — every kind occurring in the log appears with exactly its record
count — presents the entries sorted descending by count, returns the
empty table on the empty log, and on the log [A,A,B,C,C,C] yields the
table C:3, A:2, B:1 in descending order. -/
theorem C6_aggregateAll (log : List String) (k : String) (hk : k ∈ log) :
    aggregateAll [] = [] ∧
    aggregateAll ["A", "A", "B", "C", "C", "C"] = [("C", 3), ("A", 2), ("B", 1)] ∧
    (k, log.count k) ∈ aggregateAll log ∧
    List.Sorted (fun a b : String × Nat => b.2 ≤ a.2) (aggregateAll log) := by
  refine ⟨rfl, rfl, ?_, ?_⟩
  · unfold aggregateAll
    rw [List.mem_reverse, List.mem_insertionSort]
    unfold groupCount
    exact List.mem_map.mpr ⟨k, List.mem_dedup.mpr hk, rfl⟩
  · unfold aggregateAll
    haveI ht : IsTotal (String × Nat) (fun a b => a.2 ≤ b.2) :=
      ⟨fun a b => Nat.le_total a.2 b.2⟩
    haveI htr : IsTrans (String × Nat) (fun a b => a.2 ≤ b.2) :=
      ⟨fun a b c hab hbc => Nat.le_trans hab hbc⟩
    have hs := List.sorted_insertionSort (fun a b : String × Nat => a.2 ≤ b.2)
      (groupCount log)
    unfold List.Sorted at hs ⊢
    exact List.pairwise_reverse.mpr hs

/-- Claim C6 witness: the kind A of a three-record log appears with
count 2. -/
theorem C6_witness :
    "A" ∈ ["A", "A", "B"] ∧ ("A", 2) ∈ aggregateAll ["A", "A", "B"] :=
  ⟨by simp, (C6_aggregateAll ["A", "A", "B"] "A" (by simp)).2.2.1⟩

/-- Claim C8, counterexample: a PRESENCE_UPDATE frame with no "user"
payload field is classified, yet its processing performs zero counter
increments — the counter is not incremented exactly once per classified
EventFrame. -/
theorem C8_counterexample :
    classifyEvent [("t", PyVal.str "PRESENCE_UPDATE"),
                   ("d", PyVal.dict [("guild_id", PyVal.str "124")])] =
      PyVal.str "PRESENCE_UPDATE" ∧
    ((on_socket_response [("t", PyVal.str "PRESENCE_UPDATE"),
                          ("d", PyVal.dict [("guild_id", PyVal.str "124")])] 0 true).1.countP
        Effect.isIncr) = 0 :=
  ⟨rfl, rfl⟩

/-- Claim C8 (amended): the increment adds 1 to the kind's count,
creating the entry at 1 when absent; each frame's handler performs at
most one increment, exactly one whenever it completes without an
exception (a frame that aborts — classification-payload error or failed
log append — is not counted); nothing ever decrements, so every count
is monotonically non-decreasing over any run of frames. -/
theorem C8_amended (c : Counter) (k k2 : PyVal) (data : PyDict) (seq : Int)
    (logOk : Bool) (frames : List (PyDict × Int × Bool)) (hk : hashable k = true) :
    counterGet (counterIncr c k) k = counterGet c k + 1 ∧
    (counterGet c k = 0 → counterGet (counterIncr c k) k = 1) ∧
    ((on_socket_response data seq logOk).1.countP Effect.isIncr) ≤ 1 ∧
    ((on_socket_response data seq logOk).2 = Option.none →
      ((on_socket_response data seq logOk).1.countP Effect.isIncr) = 1) ∧
    counterGet c k2 ≤ counterGet (runFrames c frames) k2 := by
  have hc1 : ((classifyWithWarn data).2).countP Effect.isIncr = 0 :=
    countP_zero_of_all_not _ _ (classifyWithWarn_not_incr data)
  have hc2 : ((frameAction (classifyEvent data) data seq logOk).1).countP Effect.isIncr = 0 :=
    countP_zero_of_all_not _ _ (frameAction_not_incr _ data seq logOk)
  refine ⟨counterGet_incr_self c k hk,
    fun h0 => by rw [counterGet_incr_self c k hk, h0],
    ?_, ?_, counterGet_runFrames_le frames c k2⟩
  · rcases hfa : (frameAction (classifyEvent data) data seq logOk).2 with _ | e
    · rw [on_socket_fst_of_success data seq logOk hfa]
      simp only [List.countP_append, hc1, hc2]
      simp [List.countP_cons, Effect.isIncr]
    · rw [on_socket_fst_of_fail data seq logOk e hfa]
      simp only [List.countP_append, hc1, hc2]
      simp
  · intro h
    rw [on_socket_err_eq] at h
    rw [on_socket_fst_of_success data seq logOk h]
    simp only [List.countP_append, hc1, hc2]
    simp [List.countP_cons, Effect.isIncr]

/-- Claim C8 witness: incrementing a fresh string key yields count 1,
and a tagged frame that completes is counted exactly once. -/
theorem C8_witness :
    hashable (PyVal.str "A") = true ∧
    counterGet (counterIncr [] (PyVal.str "A")) (PyVal.str "A") =
      counterGet [] (PyVal.str "A") + 1 ∧
    ((on_socket_response [("t", PyVal.str "X")] 0 true).1.countP Effect.isIncr) = 1 :=
  ⟨rfl,
    (C8_amended [] (PyVal.str "A") (PyVal.str "A") [("t", PyVal.str "X")] 0 true [] rfl).1,
    (C8_amended [] (PyVal.str "A") (PyVal.str "A") [("t", PyVal.str "X")] 0 true [] rfl).2.2.2.1
      rfl⟩

/-- Claim C9: for MESSAGE_DELETE and MESSAGE_UPDATE, the logged record's
`channel_id` field is computed from `message.server.id`, so the record
satisfies channel_id = server_id. -/
theorem C9_channel_id_from_server (aid aname sid content oldc : PyVal) :
    on_message_delete (mkMessage aid aname sid content) true =
      ([Effect.log [("t", .str "MESSAGE_DELETE"), ("member_id", aid),
                    ("member_name", aname), ("server_id", sid),
                    ("channel_id", sid), ("content", content)]], Option.none) ∧
    on_message_edit (PyVal.dict [("content", oldc)]) (mkMessage aid aname sid content) true =
      ([Effect.log [("t", .str "MESSAGE_UPDATE"), ("member_id", aid),
                    ("member_name", aname), ("server_id", sid),
                    ("channel_id", sid), ("old_content", oldc),
                    ("content", content)]], Option.none) ∧
    dget [("t", .str "MESSAGE_DELETE"), ("member_id", aid),
          ("member_name", aname), ("server_id", sid),
          ("channel_id", sid), ("content", content)] "channel_id" =
      dget [("t", .str "MESSAGE_DELETE"), ("member_id", aid),
            ("member_name", aname), ("server_id", sid),
            ("channel_id", sid), ("content", content)] "server_id" ∧
    dget [("t", .str "MESSAGE_UPDATE"), ("member_id", aid),
          ("member_name", aname), ("server_id", sid),
          ("channel_id", sid), ("old_content", oldc), ("content", content)] "channel_id" =
      dget [("t", .str "MESSAGE_UPDATE"), ("member_id", aid),
            ("member_name", aname), ("server_id", sid),
            ("channel_id", sid), ("old_content", oldc), ("content", content)] "server_id" :=
  ⟨rfl, rfl, rfl, rfl⟩
